import Mathlib

/-!
# ice-tracker API handlers: a shallow embedding

The Go handlers of `go-api/handlers` are embedded as pure Lean functions.
The gin request context is a pair of association lists (URL query string and
path parameters), the `pgx` pool is a record of functions giving the outcome of
each storage call, and the clock is passed in explicitly.  A handler returns the
HTTP status and the JSON body it hands to `c.JSON`, together with the list of
storage calls it issued.
-/

namespace IceTracker

/-! ## The gin request context -/

/-- The part of `*gin.Context` the handlers read: the URL query string and the
path parameters, both as association lists in request order. -/
structure Context where
  query : List (String × String)
  params : List (String × String)

/-- The first value of a query key, if the key occurs (`c.GetQuery`). -/
def Context.GetQuery (c : Context) (key : String) : Option String :=
  c.query.lookup key

/-- The first value of a query key, or `""` when the key is missing (`c.Query`). -/
def Context.Query (c : Context) (key : String) : String :=
  (c.GetQuery key).getD ""

/-- The first value of a query key, or `defaultValue` when the key is missing
(`c.DefaultQuery`).  A key that occurs with an empty value yields `""`. -/
def Context.DefaultQuery (c : Context) (key defaultValue : String) : String :=
  (c.GetQuery key).getD defaultValue

/-- The value of a path parameter, or `""` when there is none (`c.Param`). -/
def Context.Param (c : Context) (key : String) : String :=
  (c.params.lookup key).getD ""

/-! ## Go string conversion -/

/-- Go's `string(rune(n))`: the text of the code point `n`, and the replacement
character for a number that is not a valid code point. -/
def runeString (n : Nat) : String :=
  if n.isValidChar then String.singleton (Char.ofNat n) else "�"

/-- The state threaded through the query construction: the text so far, the
bound arguments so far and the next placeholder index. -/
structure Builder where
  query : String
  args : List String
  argCount : Nat
  deriving DecidableEq, Repr

/-! ## Listing handlers: query construction -/

/-- The base statement of `GetArrests`. -/
def arrestsBase : String :=
  "\n\t\tSELECT\n\t\t\tid, timestamp, state, county, city,\n\t\t\tarrest_count, criminal_arrests, non_criminal_arrests,\n\t\t\tdata_source, source_url, created_at\n\t\tFROM arrests\n\t\tWHERE 1=1\n\t"

/-- The base statement of `GetDetentions`. -/
def detentionsBase : String :=
  "\n\t\tSELECT\n\t\t\tid, timestamp, facility_name, facility_id, state, city,\n\t\t\tdetained_count, capacity, avg_daily_population,\n\t\t\tfacility_type, data_source, created_at\n\t\tFROM detentions\n\t\tWHERE 1=1\n\t"

/-- The query text and argument list `GetArrests` passes to `Pool.Query`
(lines 15-51 of `arrests.go`). -/
def GetArrestsBuild (c : Context) : Builder :=
  let state := c.Query "state"
  let startDate := c.Query "start_date"
  let endDate := c.Query "end_date"
  let limit := c.DefaultQuery "limit" "100"
  let b : Builder := ⟨arrestsBase, [], 1⟩
  let b : Builder :=
    if state ≠ "" then
      ⟨b.query ++ (" AND state = $" ++ runeString (b.argCount + 48)), b.args ++ [state], b.argCount + 1⟩
    else b
  let b : Builder :=
    if startDate ≠ "" then
      ⟨b.query ++ (" AND timestamp >= $" ++ runeString (b.argCount + 48)), b.args ++ [startDate], b.argCount + 1⟩
    else b
  let b : Builder :=
    if endDate ≠ "" then
      ⟨b.query ++ (" AND timestamp <= $" ++ runeString (b.argCount + 48)), b.args ++ [endDate], b.argCount + 1⟩
    else b
  ⟨b.query ++ (" ORDER BY timestamp DESC LIMIT $" ++ runeString (b.argCount + 48)), b.args ++ [limit], b.argCount⟩

/-- The query text and argument list `GetDetentions` passes to `Pool.Query`
(lines 14-56 of `detentions.go`). -/
def GetDetentionsBuild (c : Context) : Builder :=
  let state := c.Query "state"
  let facilityID := c.Query "facility_id"
  let startDate := c.Query "start_date"
  let endDate := c.Query "end_date"
  let limit := c.DefaultQuery "limit" "100"
  let b : Builder := ⟨detentionsBase, [], 1⟩
  let b : Builder :=
    if state ≠ "" then
      ⟨b.query ++ (" AND state = $" ++ runeString (b.argCount + 48)), b.args ++ [state], b.argCount + 1⟩
    else b
  let b : Builder :=
    if facilityID ≠ "" then
      ⟨b.query ++ (" AND facility_id = $" ++ runeString (b.argCount + 48)), b.args ++ [facilityID], b.argCount + 1⟩
    else b
  let b : Builder :=
    if startDate ≠ "" then
      ⟨b.query ++ (" AND timestamp >= $" ++ runeString (b.argCount + 48)), b.args ++ [startDate], b.argCount + 1⟩
    else b
  let b : Builder :=
    if endDate ≠ "" then
      ⟨b.query ++ (" AND timestamp <= $" ++ runeString (b.argCount + 48)), b.args ++ [endDate], b.argCount + 1⟩
    else b
  ⟨b.query ++ (" ORDER BY timestamp DESC LIMIT $" ++ runeString (b.argCount + 48)), b.args ++ [limit], b.argCount⟩

/-! ## Specification side of the query builder -/

/-- The values of the filters that are present (non-empty), in the given order. -/
def presentValues (values : List String) : List String :=
  values.filter (fun v => v ≠ "")

/-- The filters that are present, each as its predicate text (up to and
including the dollar sign) paired with its value. -/
def presentFilters (filters : List (String × String)) : List (String × String) :=
  filters.filter (fun p => p.2 ≠ "")

/-- Predicate texts numbered with decimal placeholders starting at index `i`. -/
def numberedFrom : Nat → List String → String
  | _, [] => ""
  | i, p :: ps => p ++ toString i ++ numberedFrom (i + 1) ps

/-- The statement text the spec describes: the base, then the present
predicates numbered 1, 2, ... in decimal, then the limit clause numbered one
past the number of present predicates. -/
def specQuery (base : String) (preds : List String) : String :=
  base ++ numberedFrom 1 preds ++ " ORDER BY timestamp DESC LIMIT $" ++ toString (preds.length + 1)


/-- The predicates of `GetArrests` in source order, each paired with the value
of its filter. -/
def arrestFilters (c : Context) : List (String × String) :=
  [(" AND state = $", c.Query "state"),
   (" AND timestamp >= $", c.Query "start_date"),
   (" AND timestamp <= $", c.Query "end_date")]

/-- The predicates of `GetDetentions` in source order, each paired with the
value of its filter. -/
def detentionFilters (c : Context) : List (String × String) :=
  [(" AND state = $", c.Query "state"),
   (" AND facility_id = $", c.Query "facility_id"),
   (" AND timestamp >= $", c.Query "start_date"),
   (" AND timestamp <= $", c.Query "end_date")]

/-- The records of the rows that decode, in storage order. -/
def decodedRows {α : Type} (rows : List (Except String α)) : List α :=
  rows.filterMap (fun r => match r with
    | Except.ok a => some a
    | Except.error _ => none)

/-- The rows before the first row that fails to decode. -/
def rowsBeforeFailure {α : Type} (rows : List (Except String α)) : List (Except String α) :=
  rows.takeWhile (fun r => match r with
    | Except.ok _ => true
    | Except.error _ => false)

/-- The number of rows that fail to decode. -/
def failedRows {α : Type} (rows : List (Except String α)) : Nat :=
  rows.countP (fun r => match r with
    | Except.ok _ => false
    | Except.error _ => true)

/-! ## Time values -/

/-- A `time.Time` as the handlers see it: a calendar date and a clock reading.
The location is not modelled: `time.Now()` is read in the server's zone and
`time.Parse` yields UTC. -/
structure Time where
  year : Int
  month : Nat
  day : Nat
  hour : Nat
  minute : Nat
  second : Nat
  nsec : Nat
  deriving DecidableEq, Repr

/-- The zero `time.Time`: 1 January of year 1, 00:00:00. -/
def Time.zero : Time := ⟨1, 1, 1, 0, 0, 0, 0⟩

/-- Go's `isLeap`. -/
def isLeap (year : Int) : Bool :=
  year % 4 = 0 && (year % 100 ≠ 0 || year % 400 = 0)

/-- Go's `daysIn`: the number of days of a month (1..12) of a year. -/
def daysIn (month : Nat) (year : Int) : Nat :=
  if month = 2 then (if isLeap year then 29 else 28)
  else if month = 4 ∨ month = 6 ∨ month = 9 ∨ month = 11 then 30
  else 31

/-- Day normalisation of Go's `Date` for a day past the end of the month: the
excess days are carried into the following months. -/
def rollForward : Nat → Int → Nat → Nat → Int × Nat × Nat
  | 0, y, m, d => (y, m, d)
  | fuel + 1, y, m, d =>
    if d ≤ daysIn m y then (y, m, d)
    else if m = 12 then rollForward fuel (y + 1) 1 (d - daysIn m y)
    else rollForward fuel y (m + 1) (d - daysIn m y)

/-- Go's `Date(year, month, day, ...)` on a positive day and a valid clock
reading: the month is normalised into 1..12 overflowing into the year, then the
day is normalised by counting `day - 1` days from the first of that month.
Zone transitions are not modelled. -/
def goDate (year month : Int) (day hour minute second nsec : Nat) : Time :=
  let m0 := month - 1
  let y := year + m0 / 12
  let m := (m0 % 12).toNat + 1
  let r := rollForward day y m day
  ⟨r.1, r.2.1, r.2.2, hour, minute, second, nsec⟩

/-- Go's `t.AddDate(years, months, days)` for a non-negative number of days. -/
def Time.AddDate (t : Time) (years months : Int) (days : Nat) : Time :=
  goDate (t.year + years) ((t.month : Int) + months) (t.day + days)
    t.hour t.minute t.second t.nsec

/-- The decimal digit character of `n % 10`. -/
def digitChar (n : Nat) : Char := Char.ofNat (48 + n % 10)

/-- Go's `appendInt(b, x, width)` of package `time`: the decimal text of `x`,
zero-padded to at least `width` digits, with a leading minus sign for a negative
number. -/
def appendInt (x : Int) (width : Nat) : List Char :=
  let u := x.natAbs
  let sign := if x < 0 then ['-'] else []
  if width = 2 ∧ u < 100 then sign ++ [digitChar (u / 10), digitChar u]
  else if width = 4 ∧ u < 10000 then
    sign ++ [digitChar (u / 1000), digitChar (u / 100), digitChar (u / 10), digitChar u]
  else
    let ds := (Nat.repr u).toList
    sign ++ List.replicate (width - ds.length) '0' ++ ds

/-- Go's `t.Format("2006-01-02")`. -/
def Time.Format (t : Time) : String :=
  String.mk (appendInt t.year 4 ++ ['-'] ++ appendInt t.month 2 ++ ['-'] ++ appendInt t.day 2)

/-- The value of a decimal digit character. -/
def digitVal (c : Char) : Nat := c.toNat - 48

/-- The four-digit year field of `time.Parse` (`stdLongYear`). -/
def parseLongYear : List Char → Option (Nat × List Char)
  | a :: b :: c :: d :: rest =>
    if a.isDigit && b.isDigit && c.isDigit && d.isDigit then
      some (digitVal a * 1000 + digitVal b * 100 + digitVal c * 10 + digitVal d, rest)
    else none
  | _ => none

/-- Go's `getnum(s, true)`: exactly two decimal digits. -/
def getnum : List Char → Option (Nat × List Char)
  | a :: b :: rest =>
    if a.isDigit && b.isDigit then some (digitVal a * 10 + digitVal b, rest) else none
  | _ => none

/-- Go's `skip(value, "-")`: the value must start with the literal. -/
def skipDash : List Char → Option (List Char)
  | c :: rest => if c = '-' then some rest else none
  | [] => none

/-- Go's `time.Parse("2006-01-02", value)`, with `none` for an error: a
four-digit year, a two-digit month in 1..12 and a two-digit day that exists in
that month, separated by dashes, and nothing else.  The result is at midnight. -/
def timeParse (value : String) : Option Time :=
  match parseLongYear value.toList with
  | none => none
  | some (year, v) =>
    match skipDash v with
    | none => none
    | some v =>
      match getnum v with
      | none => none
      | some (month, v) =>
        if month ≤ 0 ∨ 12 < month then none
        else
          match skipDash v with
          | none => none
          | some v =>
            match getnum v with
            | none => none
            | some (day, v) =>
              if v ≠ [] then none
              else if day < 1 ∨ day > daysIn month year then none
              else some ⟨year, month, day, 0, 0, 0, 0⟩

/-! ## Records -/

/-- The `models.Arrest` record. -/
structure Arrest where
  ID : Int
  Timestamp : Time
  State : String
  County : String
  City : String
  ArrestCount : Int
  CriminalArrests : Int
  NonCriminalArrests : Int
  DataSource : String
  SourceURL : String
  CreatedAt : Time
  deriving DecidableEq, Repr

/-- The `models.Detention` record.  The `float64` field is carried as its bit
pattern: the handlers never compute with it. -/
structure Detention where
  ID : Int
  Timestamp : Time
  FacilityName : String
  FacilityID : String
  State : String
  City : String
  DetainedCount : Int
  Capacity : Int
  AvgDailyPopulation : Nat
  FacilityType : String
  DataSource : String
  CreatedAt : Time
  deriving DecidableEq, Repr

/-- The `models.DataSourceHealth` record. -/
structure DataSourceHealth where
  ID : Int
  SourceName : String
  LastSuccessfulFetch : Time
  LastAttempt : Time
  Status : String
  ErrorMessage : String
  RecordsFetched : Int
  CreatedAt : Time
  deriving DecidableEq, Repr

/-- The `models.DatabaseHealth` record. -/
structure DatabaseHealth where
  Connected : Bool
  Message : String
  deriving DecidableEq, Repr

/-- The `models.HealthResponse` record; a nil `Sources` slice is the empty list. -/
structure HealthResponse where
  Status : String
  Timestamp : Time
  Database : DatabaseHealth
  Sources : List DataSourceHealth
  deriving DecidableEq, Repr

/-- The `models.NationalAggregate` record. -/
structure NationalAggregate where
  TotalArrests : Int
  TotalDetentions : Int
  TotalRemovals : Int
  Period : String
  StartDate : Time
  EndDate : Time
  deriving DecidableEq, Repr

/-! ## Storage and replies -/

/-- A storage call issued by a handler. -/
inductive Call where
  | ping
  | query (sql : String) (args : List String)
  | queryRow (sql : String) (args : List String)
  deriving DecidableEq, Repr

/-- The `pgx` v5 pool as the handlers use it.  `Ping` fails with an error text
or succeeds; `Query` fails or yields the rows the store returns, in storage
order, each row either decoding to a record of type `ρ` or failing to decode in
`rows.Scan`; `QueryRow` is `QueryRow(...).Scan(&n)` for an `int` destination. -/
structure Pool (ρ : Type) where
  Ping : Except String Unit
  Query : String → List String → Except String (List (Except String ρ))
  QueryRow : String → List String → Except String Int

/-- What a handler hands to `c.JSON`, with the storage calls it issued in order. -/
structure Reply (β : Type) where
  status : Nat
  body : β
  calls : List Call

/-- The `gin.H` bodies of the listing handlers. -/
inductive ListBody (α : Type) where
  | failure (error detail : String)
  | page (count : Nat) (data : List α)
  deriving DecidableEq

/-- The row loop of the handlers over `pgx` v5 rows: `rows.Next()` yields the
returned rows in order and a row that decodes is appended.  A `rows.Scan` that
fails closes the rows, so after the handler skips that row the next
`rows.Next()` is false and the loop ends: the rows after the first row that
fails to decode are not visited. -/
def scanRows {α : Type} : List (Except String α) → List α → List α
  | [], acc => acc
  | Except.error _ :: _, acc => acc
  | Except.ok a :: rest, acc => scanRows rest (acc ++ [a])

/-- `GetArrests` of `arrests.go`. -/
def GetArrests (c : Context) (db : Pool Arrest) : Reply (ListBody Arrest) :=
  let b := GetArrestsBuild c
  match db.Query b.query b.args with
  | Except.error err =>
    ⟨500, ListBody.failure "Failed to query arrests" err, [Call.query b.query b.args]⟩
  | Except.ok rows =>
    let arrests := scanRows rows []
    ⟨200, ListBody.page arrests.length arrests, [Call.query b.query b.args]⟩

/-- `GetDetentions` of `detentions.go`. -/
def GetDetentions (c : Context) (db : Pool Detention) : Reply (ListBody Detention) :=
  let b := GetDetentionsBuild c
  match db.Query b.query b.args with
  | Except.error err =>
    ⟨500, ListBody.failure "Failed to query detentions" err, [Call.query b.query b.args]⟩
  | Except.ok rows =>
    let detentions := scanRows rows []
    ⟨200, ListBody.page detentions.length detentions, [Call.query b.query b.args]⟩


/-! ## Aggregate handlers -/

/-- The arrests sub-query of `GetNationalAggregate`. -/
def nationalArrestsSQL : String :=
  "\n\t\tSELECT COALESCE(SUM(arrest_count), 0)\n\t\tFROM arrests\n\t\tWHERE timestamp >= $1 AND timestamp <= $2\n\t"

/-- The detentions sub-query of `GetNationalAggregate`. -/
def nationalDetentionsSQL : String :=
  "\n\t\tSELECT COALESCE(AVG(detained_count), 0)\n\t\tFROM detentions\n\t\tWHERE timestamp >= $1 AND timestamp <= $2\n\t"

/-- The removals sub-query of `GetNationalAggregate`. -/
def nationalRemovalsSQL : String :=
  "\n\t\tSELECT COALESCE(SUM(removal_count), 0)\n\t\tFROM removals\n\t\tWHERE timestamp >= $1 AND timestamp <= $2\n\t"

/-- The arrests sub-query of `GetStateAggregate`. -/
def stateArrestsSQL : String :=
  "\n\t\tSELECT COALESCE(SUM(arrest_count), 0)\n\t\tFROM arrests\n\t\tWHERE state = $1 AND timestamp >= $2 AND timestamp <= $3\n\t"

/-- The detentions sub-query of `GetStateAggregate`. -/
def stateDetentionsSQL : String :=
  "\n\t\tSELECT COALESCE(AVG(detained_count), 0)\n\t\tFROM detentions\n\t\tWHERE state = $1 AND timestamp >= $2 AND timestamp <= $3\n\t"

/-- The removals sub-query of `GetStateAggregate`. -/
def stateRemovalsSQL : String :=
  "\n\t\tSELECT COALESCE(SUM(removal_count), 0)\n\t\tFROM removals\n\t\tWHERE state = $1 AND timestamp >= $2 AND timestamp <= $3\n\t"

/-- The pattern `err := ...Scan(&field); if err != nil { field = 0 }`. -/
def scanOrZero (r : Except String Int) : Int :=
  match r with
  | Except.ok v => v
  | Except.error _ => 0

/-- A PostgreSQL `numeric` value as `pgx` v5 holds it (`pgtype.Numeric`): the
number `coeff * 10 ^ exp`.  `AVG` over an integer column returns this type. -/
structure Numeric where
  coeff : Int
  exp : Int
  deriving DecidableEq, Repr

/-- The `Scan` of a `numeric` column into an `int` destination in `pgx` v5
(`Numeric.toBigInt` followed by the 64-bit range check): a whole number is
stored, a number with a fractional part is an error. -/
def scanNumericInt (n : Numeric) : Except String Int :=
  if n.exp = 0 then
    (if -(2 : Int) ^ 63 ≤ n.coeff ∧ n.coeff < (2 : Int) ^ 63 then Except.ok n.coeff
     else Except.error "out of range for int64")
  else if 0 < n.exp then
    (if -(2 : Int) ^ 63 ≤ n.coeff * 10 ^ n.exp.toNat ∧ n.coeff * 10 ^ n.exp.toNat < (2 : Int) ^ 63
     then Except.ok (n.coeff * 10 ^ n.exp.toNat)
     else Except.error "out of range for int64")
  else if n.coeff % 10 ^ (-n.exp).toNat ≠ 0 then Except.error "cannot convert to integer"
  else if -(2 : Int) ^ 63 ≤ n.coeff / 10 ^ (-n.exp).toNat
      ∧ n.coeff / 10 ^ (-n.exp).toNat < (2 : Int) ^ 63
    then Except.ok (n.coeff / 10 ^ (-n.exp).toNat)
  else Except.error "out of range for int64"

/-- The pattern `t, _ := time.Parse("2006-01-02", s)`: the zero time on an error. -/
def parseOrZero (s : String) : Time :=
  match timeParse s with
  | some t => t
  | none => Time.zero

/-- The default of `start_date`: `now.AddDate(0, -1, 0).Format("2006-01-02")`. -/
def defaultStartDate (now : Time) : String :=
  (now.AddDate 0 (-1) 0).Format

/-- The default of `end_date`: `now.Format("2006-01-02")`. -/
def defaultEndDate (now : Time) : String :=
  now.Format

/-- `GetNationalAggregate` of `aggregates.go`; `now1` and `now2` are the two
readings of `time.Now()` on lines 14 and 15. -/
def GetNationalAggregate {ρ : Type} (c : Context) (now1 now2 : Time) (db : Pool ρ) :
    Reply NationalAggregate :=
  let startDate := c.DefaultQuery "start_date" (defaultStartDate now1)
  let endDate := c.DefaultQuery "end_date" (defaultEndDate now2)
  let totalArrests := scanOrZero (db.QueryRow nationalArrestsSQL [startDate, endDate])
  let totalDetentions := scanOrZero (db.QueryRow nationalDetentionsSQL [startDate, endDate])
  let totalRemovals := scanOrZero (db.QueryRow nationalRemovalsSQL [startDate, endDate])
  let start := parseOrZero startDate
  let endTime := parseOrZero endDate
  ⟨200, ⟨totalArrests, totalDetentions, totalRemovals, "custom", start, endTime⟩,
    [Call.queryRow nationalArrestsSQL [startDate, endDate],
     Call.queryRow nationalDetentionsSQL [startDate, endDate],
     Call.queryRow nationalRemovalsSQL [startDate, endDate]]⟩

/-- `GetStateAggregate` of `aggregates.go`; `now1` and `now2` are the two
readings of `time.Now()` on lines 63 and 64. -/
def GetStateAggregate {ρ : Type} (c : Context) (now1 now2 : Time) (db : Pool ρ) :
    Reply NationalAggregate :=
  let state := c.Param "state"
  let startDate := c.DefaultQuery "start_date" (defaultStartDate now1)
  let endDate := c.DefaultQuery "end_date" (defaultEndDate now2)
  let totalArrests := scanOrZero (db.QueryRow stateArrestsSQL [state, startDate, endDate])
  let totalDetentions := scanOrZero (db.QueryRow stateDetentionsSQL [state, startDate, endDate])
  let totalRemovals := scanOrZero (db.QueryRow stateRemovalsSQL [state, startDate, endDate])
  let start := parseOrZero startDate
  let endTime := parseOrZero endDate
  ⟨200, ⟨totalArrests, totalDetentions, totalRemovals, state, start, endTime⟩,
    [Call.queryRow stateArrestsSQL [state, startDate, endDate],
     Call.queryRow stateDetentionsSQL [state, startDate, endDate],
     Call.queryRow stateRemovalsSQL [state, startDate, endDate]]⟩

/-! ## Health handler -/

/-- The source-health statement of `HealthCheck`. -/
def sourceHealthSQL : String :=
  "\n\t\tSELECT DISTINCT ON (source_name)\n\t\t\tsource_name,\n\t\t\tlast_successful_fetch,\n\t\t\tlast_attempt,\n\t\t\tstatus,\n\t\t\terror_message,\n\t\t\trecords_fetched\n\t\tFROM data_source_health\n\t\tORDER BY source_name, created_at DESC\n\t\tLIMIT 10\n\t"

/-- `HealthCheck` of `health.go`; `now` is the reading of `time.Now()`. -/
def HealthCheck (now : Time) (db : Pool DataSourceHealth) : Reply HealthResponse :=
  let health : HealthResponse := ⟨"healthy", now, ⟨false, ""⟩, []⟩
  match db.Ping with
  | Except.error err =>
    let health := { health with Status := "unhealthy" }
    let health := { health with Database := { health.Database with Message := err } }
    ⟨503, health, [Call.ping]⟩
  | Except.ok _ =>
    let health := { health with Database := { health.Database with Connected := true } }
    let health := { health with Database := { health.Database with Message := "connected" } }
    match db.Query sourceHealthSQL [] with
    | Except.ok rows =>
      let sources := scanRows rows []
      let health := { health with Sources := sources }
      ⟨200, health, [Call.ping, Call.query sourceHealthSQL []]⟩
    | Except.error _ =>
      ⟨200, health, [Call.ping, Call.query sourceHealthSQL []]⟩


/-! ## Specification side of the date defaults -/

/-- A clock reading that `time.Now()` can return: a month in 1..12 and a day
that exists in that month. -/
def Time.validDate (t : Time) : Prop :=
  1 ≤ t.month ∧ t.month ≤ 12 ∧ 1 ≤ t.day ∧ t.day ≤ daysIn t.month t.year

instance (t : Time) : Decidable t.validDate := by
  unfold Time.validDate
  infer_instance

/-- The calendar date of `a` is strictly before the calendar date of `b`. -/
def Time.dateBefore (a b : Time) : Prop :=
  a.year < b.year ∨ (a.year = b.year ∧ (a.month < b.month ∨ (a.month = b.month ∧ a.day < b.day)))

instance (a b : Time) : Decidable (a.dateBefore b) := by
  unfold Time.dateBefore
  infer_instance

/-- The calendar date of a time, at midnight. -/
def Time.midnight (t : Time) : Time :=
  ⟨t.year, t.month, t.day, 0, 0, 0, 0⟩

/-- The month before the month of `t`, with its year. -/
def previousMonth (t : Time) : Int × Nat :=
  if t.month = 1 then (t.year - 1, 12) else (t.year, t.month - 1)

/-- One month back with carry, at midnight: the same day of the previous month
when that month has such a day, and otherwise the day of the current month left
after taking off the length of the previous month. -/
def monthBackWithCarry (t : Time) : Time :=
  let p := previousMonth t
  if t.day ≤ daysIn p.2 p.1 then ⟨p.1, p.2, t.day, 0, 0, 0, 0⟩
  else ⟨t.year, t.month, t.day - daysIn p.2 p.1, 0, 0, 0, 0⟩

/-! ## Specification side of the detentions average -/

/-- A `numeric` value truncated to an integer (towards zero). -/
def Numeric.truncate (n : Numeric) : Int :=
  if 0 ≤ n.exp then n.coeff * 10 ^ n.exp.toNat
  else Int.tdiv n.coeff (10 ^ (-n.exp).toNat)

/-! ## Sample inputs -/

/-- A clock reading on 15 March 2024. -/
def sampleNow : Time := ⟨2024, 3, 15, 9, 30, 0, 0⟩

/-- A store whose detentions sub-query of the national aggregate times out while
the arrests sub-query returns 120 and the removals sub-query returns 30. -/
def degradedPool : Pool Unit :=
  ⟨Except.ok (), fun _ _ => Except.ok [],
    fun sql _ =>
      if sql = nationalDetentionsSQL then Except.error "context deadline exceeded"
      else if sql = nationalArrestsSQL then Except.ok 120
      else Except.ok 30⟩

/-- A request with an explicit date range. -/
def rangeRequest : Context :=
  ⟨[("start_date", "2024-01-01"), ("end_date", "2024-01-31")], []⟩

/-- A store that cannot be reached. -/
def downPool : Pool DataSourceHealth :=
  ⟨Except.error "connection refused", fun _ _ => Except.error "connection refused",
    fun _ _ => Except.error "connection refused"⟩

/-- A source-health row. -/
def sampleSource : DataSourceHealth :=
  ⟨0, "ice.gov", ⟨2024, 3, 14, 0, 0, 0, 0⟩, ⟨2024, 3, 15, 0, 0, 0, 0⟩, "ok", "", 42, Time.zero⟩

/-- A reachable store whose every query returns the given rows. -/
def rowsPool {ρ : Type} (rows : List (Except String ρ)) : Pool ρ :=
  ⟨Except.ok (), fun _ _ => Except.ok rows, fun _ _ => Except.ok 0⟩

/-- Two source-health rows: one that fails to decode, then one that decodes. -/
def sourceRows : List (Except String DataSourceHealth) :=
  [Except.error "cannot scan NULL into *string", Except.ok sampleSource]

/-- A reachable store whose source-health query returns `sourceRows`. -/
def upPool : Pool DataSourceHealth :=
  rowsPool sourceRows

/-- A listing request for one state. -/
def stateRequest : Context :=
  ⟨[("state", "CA")], []⟩

/-- An arrest row of 2 March 2024. -/
def arrestOne : Arrest :=
  ⟨1, ⟨2024, 3, 2, 0, 0, 0, 0⟩, "CA", "Kern", "", 5, 2, 3, "ice", "", Time.zero⟩

/-- An arrest row of 1 March 2024. -/
def arrestThree : Arrest :=
  ⟨3, ⟨2024, 3, 1, 0, 0, 0, 0⟩, "CA", "Kern", "", 7, 3, 4, "ice", "", Time.zero⟩

/-- Three arrest rows: the middle one fails to decode. -/
def arrestRows : List (Except String Arrest) :=
  [Except.ok arrestOne, Except.error "cannot scan NULL into *string", Except.ok arrestThree]

/-- A detention row. -/
def detentionOne : Detention :=
  ⟨1, ⟨2024, 3, 2, 0, 0, 0, 0⟩, "Mesa Verde", "MV1", "CA", "Bakersfield", 310, 400, 0,
    "contract", "ice", Time.zero⟩

/-- Two detention rows: the first one fails to decode. -/
def detentionRows : List (Except String Detention) :=
  [Except.error "cannot scan NULL into *string", Except.ok detentionOne]

/-- A store whose arrests sum to 120, whose removals sum to 30 and whose average
detained count is the given `numeric`, scanned into the `int` field. -/
def averagePool (avg : Numeric) : Pool Unit :=
  ⟨Except.ok (), fun _ _ => Except.ok [],
    fun sql _ =>
      if sql = nationalDetentionsSQL ∨ sql = stateDetentionsSQL then scanNumericInt avg
      else if sql = nationalArrestsSQL ∨ sql = stateArrestsSQL then Except.ok 120
      else Except.ok 30⟩

/-- A request whose `start_date` is not a calendar date. -/
def badStartRequest : Context :=
  ⟨[("start_date", "not-a-date")], []⟩

/-- A request with no query parameters, for the route `/aggregates/state/CA`. -/
def bareRequest : Context :=
  ⟨[], [("state", "CA")]⟩

/-- A store that rejects a sub-query bound that is not a calendar date and
answers 5 otherwise. -/
def datePool : Pool Unit :=
  ⟨Except.ok (), fun _ _ => Except.ok [],
    fun _ args =>
      if "not-a-date" ∈ args then Except.error "invalid input syntax for type timestamp"
      else Except.ok 5⟩

/-- A clock reading on 31 May 2024. -/
def lastOfMay : Time := ⟨2024, 5, 31, 9, 30, 0, 0⟩

/-! ## Lemmas -/

/-- The single-character rendering of an index up to 9 is its decimal numeral. -/
theorem runeString_digit (n : Nat) (h : n ≤ 9) : runeString (n + 48) = toString n := by
  interval_cases n <;> decide

/-- The row loop appends the rows that decode before the first failure. -/
theorem scanRows_eq {α : Type} (rows : List (Except String α)) (acc : List α) :
    scanRows rows acc = acc ++ decodedRows (rowsBeforeFailure rows) := by
  induction rows generalizing acc with
  | nil => simp [scanRows, decodedRows, rowsBeforeFailure]
  | cons r rest ih =>
    cases r with
    | error e => simp [scanRows, decodedRows, rowsBeforeFailure]
    | ok a => simpa [scanRows, decodedRows, rowsBeforeFailure] using ih (acc ++ [a])

/-! ### Dates -/

/-- A digit character is a decimal digit. -/
theorem digitChar_isDigit (n : Nat) : (digitChar n).isDigit = true := by
  unfold digitChar
  have h : n % 10 < 10 := Nat.mod_lt _ (by omega)
  generalize n % 10 = k at h
  interval_cases k <;> decide

/-- The value of a digit character is the digit. -/
theorem digitVal_digitChar (n : Nat) : digitVal (digitChar n) = n % 10 := by
  unfold digitChar
  have h : n % 10 < 10 := Nat.mod_lt _ (by omega)
  have h2 : n % 10 % 10 = n % 10 := Nat.mod_mod _ _
  generalize n % 10 = k at h h2 ⊢
  interval_cases k <;> decide

/-- A digit character is not a dash. -/
theorem digitChar_ne_dash (n : Nat) : digitChar n ≠ '-' := by
  unfold digitChar
  have h : n % 10 < 10 := Nat.mod_lt _ (by omega)
  generalize n % 10 = k at h
  interval_cases k <;> decide

/-- Every month has between 28 and 31 days. -/
theorem daysIn_le (m : Nat) (y : Int) : 28 ≤ daysIn m y ∧ daysIn m y ≤ 31 := by
  unfold daysIn
  split
  · split <;> omega
  · split <;> omega

/-- A number below 10000 is written with four digits. -/
theorem appendInt_four (u : Nat) (h : u < 10000) :
    appendInt (u : Int) 4
      = [digitChar (u / 1000), digitChar (u / 100), digitChar (u / 10), digitChar u] := by
  have hn : ¬ ((u : Int) < 0) := by omega
  simp [appendInt, h, hn]

/-- A number below 100 is written with two digits. -/
theorem appendInt_two (u : Nat) (h : u < 100) :
    appendInt (u : Int) 2 = [digitChar (u / 10), digitChar u] := by
  have hn : ¬ ((u : Int) < 0) := by omega
  simp [appendInt, h, hn]

/-- Parsing a formatted date gives the date back at midnight. -/
theorem timeParse_Format (t : Time) (hy0 : 0 ≤ t.year) (hy : t.year ≤ 9999)
    (hv : t.validDate) : timeParse t.Format = some t.midnight := by
  obtain ⟨y, m, d, hh, mm, ss, ns⟩ := t
  obtain ⟨hm1, hm2, hd1, hd2⟩ := hv
  simp only at hy0 hy hm1 hm2 hd1 hd2
  obtain ⟨u, rfl⟩ := Int.eq_ofNat_of_zero_le hy0
  have hu : u < 10000 := by omega
  have hd3 := (daysIn_le m (u : Int)).2
  have hm : m < 100 := by omega
  have hd : d < 100 := by omega
  have e4 : u / 1000 % 10 * 1000 + u / 100 % 10 * 100 + u / 10 % 10 * 10 + u % 10 = u := by omega
  have em : m / 10 % 10 * 10 + m % 10 = m := by omega
  have ed : d / 10 % 10 * 10 + d % 10 = d := by omega
  have hm0 : ¬ (m = 0) := by omega
  have hm12 : ¬ (12 < m) := by omega
  have hd0 : ¬ (d = 0) := by omega
  have hdd : ¬ (daysIn m (u : Int) < d) := by omega
  simp [timeParse, Time.Format, appendInt_four u hu, appendInt_two m hm, appendInt_two d hd,
    parseLongYear, getnum, skipDash,
    digitChar_isDigit, digitVal_digitChar, e4, em, ed, Time.midnight, hm0, hm12, hd0, hdd]

/-- A day that exists in its month is left alone. -/
theorem rollForward_of_le (fuel : Nat) (y : Int) (m d : Nat) (h : d ≤ daysIn m y) :
    rollForward fuel y m d = (y, m, d) := by
  cases fuel with
  | zero => rfl
  | succ f => simp [rollForward, h]

/-- Fuel equal to the day is always enough: the day that comes out exists in the
month that comes out. -/
theorem rollForward_normal (fuel : Nat) (y : Int) (m d : Nat) (hf : d ≤ fuel) :
    (rollForward fuel y m d).2.2 ≤ daysIn (rollForward fuel y m d).2.1 (rollForward fuel y m d).1 := by
  induction fuel generalizing y m d with
  | zero =>
    have h0 : d = 0 := by omega
    subst h0
    simp [rollForward]
  | succ f ih =>
    have hb := (daysIn_le m y).1
    by_cases h : d ≤ daysIn m y
    · simp [rollForward, h]
    · have hf2 : d - daysIn m y ≤ f := by omega
      by_cases h12 : m = 12
      · have h2 := ih (y + 1) 1 (d - daysIn m y) hf2
        rw [rollForward, if_neg h, if_pos h12]
        exact h2
      · have h2 := ih y (m + 1) (d - daysIn m y) hf2
        rw [rollForward, if_neg h, if_neg h12]
        exact h2

/-- A day up to 31 is carried over at most one month; fuel equal to the day is enough. -/
theorem rollForward_month (fuel : Nat) (y : Int) (m d : Nat) (hf : d ≤ fuel) (hd1 : 1 ≤ d)
    (hd : d ≤ 31) :
    rollForward fuel y m d =
      if d ≤ daysIn m y then (y, m, d)
      else if m = 12 then (y + 1, 1, d - daysIn m y)
      else (y, m + 1, d - daysIn m y) := by
  obtain ⟨f, rfl⟩ : ∃ f, fuel = f + 1 := ⟨fuel - 1, by omega⟩
  have hb := (daysIn_le m y).1
  by_cases h : d ≤ daysIn m y
  · simp [rollForward, h]
  · have h1 : d - daysIn m y ≤ daysIn 1 (y + 1) := by
      have := (daysIn_le 1 (y + 1)).1; omega
    have h2 : d - daysIn m y ≤ daysIn (m + 1) y := by
      have := (daysIn_le (m + 1) y).1; omega
    simp [rollForward, h, rollForward_of_le _ _ _ _ h1, rollForward_of_le _ _ _ _ h2]

/-- The default start is one month back with carry, at the clock reading of now. -/
theorem AddDate_month_back (t : Time) (hv : t.validDate) :
    t.AddDate 0 (-1) 0 =
      ⟨(monthBackWithCarry t).year, (monthBackWithCarry t).month, (monthBackWithCarry t).day,
        t.hour, t.minute, t.second, t.nsec⟩ := by
  obtain ⟨y, m, d, hh, mm, ss, ns⟩ := t
  obtain ⟨hm1, hm2, hd1, hd2⟩ := hv
  simp only at hm1 hm2 hd1 hd2
  have hd3 := (daysIn_le m y).2
  have hr := fun y' m' => rollForward_month d y' m' d (le_refl d) hd1 (by omega)
  interval_cases m <;>
    simp [Time.AddDate, goDate, monthBackWithCarry, previousMonth, hr] <;>
    (try simp only [← sub_eq_add_neg]) <;> split <;> simp

/-- One month back with carry is a date that exists. -/
theorem monthBackWithCarry_valid (t : Time) (hv : t.validDate) :
    (monthBackWithCarry t).validDate := by
  obtain ⟨y, m, d, hh, mm, ss, ns⟩ := t
  obtain ⟨hm1, hm2, hd1, hd2⟩ := hv
  simp only at hm1 hm2 hd1 hd2
  have hd3 := daysIn_le m y
  unfold monthBackWithCarry previousMonth Time.validDate
  by_cases h1 : m = 1
  · subst h1
    have := daysIn_le 12 (y - 1)
    simp only [if_true]
    split <;> simp <;> omega
  · have := daysIn_le (m - 1) y
    simp only [h1, if_false]
    split <;> simp <;> omega

/-- One month back with carry is in the same year or the year before. -/
theorem monthBackWithCarry_year (t : Time) :
    t.year - 1 ≤ (monthBackWithCarry t).year ∧ (monthBackWithCarry t).year ≤ t.year := by
  unfold monthBackWithCarry previousMonth
  by_cases h1 : t.month = 1
  · simp only [h1, if_true]
    split <;> simp
  · simp only [h1, if_false]
    split <;> simp

/-- One month back with carry is strictly before the date it starts from. -/
theorem monthBackWithCarry_before (t : Time) (hv : t.validDate) :
    (monthBackWithCarry t).dateBefore t := by
  obtain ⟨y, m, d, hh, mm, ss, ns⟩ := t
  obtain ⟨hm1, hm2, hd1, hd2⟩ := hv
  simp only at hm1 hm2 hd1 hd2
  unfold monthBackWithCarry previousMonth Time.dateBefore
  by_cases h1 : m = 1
  · subst h1
    have := daysIn_le 12 (y - 1)
    simp only [if_true]
    split
    · simp
    · simp; omega
  · have := daysIn_le (m - 1) y
    simp only [h1, if_false]
    split <;> simp <;> omega

/-- The text of a date does not depend on the clock reading. -/
theorem Format_midnight (t : Time) : t.midnight.Format = t.Format := rfl

/-! ## Listing: arguments and placeholders -/

/-- C1: the argument list built by `GetArrests` and `GetDetentions` is the values
of the present (non-empty) filters in the fixed order state, facility, start,
end, followed by the limit, which is the string 100 when the request has no
limit key; so its length is the number of present filters plus one, with no
filter present it is just the limit, and this list is what is passed to the
store with the query text. -/
theorem listing_args_are_present_filters_then_limit (c : Context)
    (dbA : Pool Arrest) (dbD : Pool Detention) :
    (GetArrestsBuild c).args =
        presentValues [c.Query "state", c.Query "start_date", c.Query "end_date"]
          ++ [(c.GetQuery "limit").getD "100"]
    ∧ (GetDetentionsBuild c).args =
        presentValues [c.Query "state", c.Query "facility_id", c.Query "start_date",
            c.Query "end_date"]
          ++ [(c.GetQuery "limit").getD "100"]
    ∧ (GetArrestsBuild c).args.length =
        (presentValues [c.Query "state", c.Query "start_date", c.Query "end_date"]).length + 1
    ∧ (GetDetentionsBuild c).args.length =
        (presentValues [c.Query "state", c.Query "facility_id", c.Query "start_date",
            c.Query "end_date"]).length + 1
    ∧ (c.Query "state" = "" ∧ c.Query "start_date" = "" ∧ c.Query "end_date" = "" →
        (GetArrestsBuild c).args = [(c.GetQuery "limit").getD "100"])
    ∧ (c.Query "state" = "" ∧ c.Query "facility_id" = "" ∧ c.Query "start_date" = ""
          ∧ c.Query "end_date" = "" →
        (GetDetentionsBuild c).args = [(c.GetQuery "limit").getD "100"])
    ∧ (GetArrests c dbA).calls =
        [Call.query (GetArrestsBuild c).query (GetArrestsBuild c).args]
    ∧ (GetDetentions c dbD).calls =
        [Call.query (GetDetentionsBuild c).query (GetDetentionsBuild c).args] := by
  have hA : (GetArrestsBuild c).args =
        presentValues [c.Query "state", c.Query "start_date", c.Query "end_date"]
          ++ [(c.GetQuery "limit").getD "100"] := by
    unfold GetArrestsBuild presentValues Context.DefaultQuery
    by_cases h1 : c.Query "state" = "" <;> by_cases h3 : c.Query "start_date" = "" <;>
      by_cases h4 : c.Query "end_date" = "" <;> simp [h1, h3, h4, List.filter]
  have hD : (GetDetentionsBuild c).args =
        presentValues [c.Query "state", c.Query "facility_id", c.Query "start_date",
            c.Query "end_date"]
          ++ [(c.GetQuery "limit").getD "100"] := by
    unfold GetDetentionsBuild presentValues Context.DefaultQuery
    by_cases h1 : c.Query "state" = "" <;> by_cases h2 : c.Query "facility_id" = "" <;>
      by_cases h3 : c.Query "start_date" = "" <;> by_cases h4 : c.Query "end_date" = "" <;>
      simp [h1, h2, h3, h4, List.filter]
  refine ⟨hA, hD, ?_, ?_, ?_, ?_, ?_, ?_⟩
  · rw [hA]; simp
  · rw [hD]; simp
  · rintro ⟨h1, h3, h4⟩
    rw [hA]; simp [presentValues, h1, h3, h4]
  · rintro ⟨h1, h2, h3, h4⟩
    rw [hD]; simp [presentValues, h1, h2, h3, h4]
  · unfold GetArrests
    dsimp only
    split <;> rfl
  · unfold GetDetentions
    dsimp only
    split <;> rfl


/-- Witness for C1: a request with no filter and no limit key binds only the
default limit. -/
theorem listing_args_are_present_filters_then_limit_witness :
    (GetArrestsBuild ⟨[], []⟩).args = ["100"]
    ∧ (GetDetentionsBuild ⟨[("facility_id", ""), ("limit", "7")], []⟩).args = ["7"] :=
  ⟨(listing_args_are_present_filters_then_limit ⟨[], []⟩
      ⟨Except.ok (), fun _ _ => Except.ok [], fun _ _ => Except.ok 0⟩
      ⟨Except.ok (), fun _ _ => Except.ok [], fun _ _ => Except.ok 0⟩).2.2.2.2.1
      ⟨by decide, by decide, by decide⟩,
   (listing_args_are_present_filters_then_limit ⟨[("facility_id", ""), ("limit", "7")], []⟩
      ⟨Except.ok (), fun _ _ => Except.ok [], fun _ _ => Except.ok 0⟩
      ⟨Except.ok (), fun _ _ => Except.ok [], fun _ _ => Except.ok 0⟩).2.2.2.2.2.1
      ⟨by decide, by decide, by decide, by decide⟩⟩

/-- C2: in the text built by `GetArrests` and `GetDetentions` the i-th appended
predicate carries the placeholder with the decimal numeral of i, counting only
appended predicates from 1, and the limit clause carries the numeral of k+1 for
k present filters; the value of the i-th appended predicate is the i-th
argument and the limit is argument k+1; the index never exceeds 9, so the single
character the code writes is that numeral. -/
theorem listing_placeholders_number_the_arguments (c : Context) :
    (GetArrestsBuild c).query =
        specQuery arrestsBase ((presentFilters (arrestFilters c)).map Prod.fst)
    ∧ (GetArrestsBuild c).args =
        (presentFilters (arrestFilters c)).map Prod.snd ++ [c.DefaultQuery "limit" "100"]
    ∧ (GetArrestsBuild c).argCount = (presentFilters (arrestFilters c)).length + 1
    ∧ (GetArrestsBuild c).argCount ≤ 9
    ∧ (GetDetentionsBuild c).query =
        specQuery detentionsBase ((presentFilters (detentionFilters c)).map Prod.fst)
    ∧ (GetDetentionsBuild c).args =
        (presentFilters (detentionFilters c)).map Prod.snd ++ [c.DefaultQuery "limit" "100"]
    ∧ (GetDetentionsBuild c).argCount = (presentFilters (detentionFilters c)).length + 1
    ∧ (GetDetentionsBuild c).argCount ≤ 9 := by
  have r1 := runeString_digit 1 (by omega)
  have r2 := runeString_digit 2 (by omega)
  have r3 := runeString_digit 3 (by omega)
  have r4 := runeString_digit 4 (by omega)
  have r5 := runeString_digit 5 (by omega)
  norm_num at r1 r2 r3 r4 r5
  unfold GetArrestsBuild GetDetentionsBuild presentFilters specQuery arrestFilters
    detentionFilters
  by_cases h1 : c.Query "state" = "" <;> by_cases h2 : c.Query "facility_id" = "" <;>
    by_cases h3 : c.Query "start_date" = "" <;> by_cases h4 : c.Query "end_date" = "" <;>
    simp [h1, h2, h3, h4, List.filter, numberedFrom, String.append_assoc, r1, r2, r3, r4, r5]

/-- C3: the query text built by `GetArrests` and `GetDetentions` depends only on
which filters are non-empty: two requests with the same filters present get the
same text, whatever the values of the filters and of the limit. -/
theorem listing_query_text_ignores_values (c1 c2 : Context)
    (hs : c1.Query "state" = "" ↔ c2.Query "state" = "")
    (ha : c1.Query "start_date" = "" ↔ c2.Query "start_date" = "")
    (he : c1.Query "end_date" = "" ↔ c2.Query "end_date" = "") :
    (GetArrestsBuild c1).query = (GetArrestsBuild c2).query
    ∧ ((c1.Query "facility_id" = "" ↔ c2.Query "facility_id" = "") →
        (GetDetentionsBuild c1).query = (GetDetentionsBuild c2).query) := by
  constructor
  · unfold GetArrestsBuild
    by_cases h1 : c1.Query "state" = "" <;> by_cases h3 : c1.Query "start_date" = "" <;>
      by_cases h4 : c1.Query "end_date" = "" <;>
      simp [h1, h3, h4, hs.mp, ha.mp, he.mp, mt hs.mpr, mt ha.mpr, mt he.mpr]
  · intro hf
    unfold GetDetentionsBuild
    by_cases h1 : c1.Query "state" = "" <;> by_cases h2 : c1.Query "facility_id" = "" <;>
      by_cases h3 : c1.Query "start_date" = "" <;> by_cases h4 : c1.Query "end_date" = "" <;>
      simp [h1, h2, h3, h4, hs.mp, hf.mp, ha.mp, he.mp, mt hs.mpr, mt hf.mpr, mt ha.mpr,
        mt he.mpr]

/-- Witness for C3: a plain state code and a value with quotes and SQL syntax
give the same statement text. -/
theorem listing_query_text_ignores_values_witness :
    (GetArrestsBuild ⟨[("state", "CA"), ("limit", "2")], []⟩).query =
        (GetArrestsBuild ⟨[("state", "CA\x27 OR \x271\x27=\x271"), ("limit", "9999")], []⟩).query
    ∧ (GetDetentionsBuild ⟨[("state", "CA"), ("limit", "2")], []⟩).query =
        (GetDetentionsBuild
          ⟨[("state", "CA\x27 OR \x271\x27=\x271"), ("limit", "9999")], []⟩).query :=
  ⟨(listing_query_text_ignores_values ⟨[("state", "CA"), ("limit", "2")], []⟩
      ⟨[("state", "CA\x27 OR \x271\x27=\x271"), ("limit", "9999")], []⟩
      (by decide) (by decide) (by decide)).1,
   (listing_query_text_ignores_values ⟨[("state", "CA"), ("limit", "2")], []⟩
      ⟨[("state", "CA\x27 OR \x271\x27=\x271"), ("limit", "9999")], []⟩
      (by decide) (by decide) (by decide)).2 (by decide)⟩


/-! ## Listing: row decoding -/

/-- C7 fails on the code: a listing query that succeeds always gives status 200
with the count equal to the length of the data, but the data is only the rows
that decode before the first row that fails to decode.  For the arrest rows
good, bad, good the reply has count 1 and the first record, where the claim
gives count 2 (three rows minus one failure) and both decoded records; for the
detention rows bad, good the reply is an empty page, where the claim gives
count 1. -/
theorem listing_stops_at_first_bad_row :
    (∀ (c : Context) (rows : List (Except String Arrest)),
      (GetArrests c (rowsPool rows)).status = 200
      ∧ (GetArrests c (rowsPool rows)).body =
          ListBody.page (decodedRows (rowsBeforeFailure rows)).length
            (decodedRows (rowsBeforeFailure rows)))
    ∧ (∀ (c : Context) (rows : List (Except String Detention)),
      (GetDetentions c (rowsPool rows)).status = 200
      ∧ (GetDetentions c (rowsPool rows)).body =
          ListBody.page (decodedRows (rowsBeforeFailure rows)).length
            (decodedRows (rowsBeforeFailure rows)))
    ∧ (GetArrests stateRequest (rowsPool arrestRows)).body = ListBody.page 1 [arrestOne]
    ∧ decodedRows arrestRows = [arrestOne, arrestThree]
    ∧ arrestRows.length - failedRows arrestRows = 2
    ∧ (GetDetentions stateRequest (rowsPool detentionRows)).body = ListBody.page 0 []
    ∧ decodedRows detentionRows = [detentionOne]
    ∧ detentionRows.length - failedRows detentionRows = 1 := by
  refine ⟨?_, ?_, by decide, by decide, by decide, by decide, by decide, by decide⟩
  · intro c rows
    simp [GetArrests, rowsPool, scanRows_eq]
  · intro c rows
    simp [GetDetentions, rowsPool, scanRows_eq]

/-! ## Aggregates: partial failure -/

/-- C4: for every outcome of the three sub-queries `GetNationalAggregate` and
`GetStateAggregate` reply with status 200 after issuing exactly those three
sub-queries, a field whose sub-query failed is 0, and a field whose sub-query
succeeded is the value that sub-query returned, whatever the other two
sub-queries did. -/
theorem aggregate_subquery_failures_are_isolated {ρ : Type} (c : Context)
    (now1 now2 : Time) (db : Pool ρ) (s e : String)
    (hs : s = c.DefaultQuery "start_date" (defaultStartDate now1))
    (he : e = c.DefaultQuery "end_date" (defaultEndDate now2)) :
    ((GetNationalAggregate c now1 now2 db).status = 200
      ∧ (GetNationalAggregate c now1 now2 db).calls =
          [Call.queryRow nationalArrestsSQL [s, e],
           Call.queryRow nationalDetentionsSQL [s, e],
           Call.queryRow nationalRemovalsSQL [s, e]]
      ∧ (∀ v, db.QueryRow nationalArrestsSQL [s, e] = Except.ok v →
          (GetNationalAggregate c now1 now2 db).body.TotalArrests = v)
      ∧ (∀ err, db.QueryRow nationalArrestsSQL [s, e] = Except.error err →
          (GetNationalAggregate c now1 now2 db).body.TotalArrests = 0)
      ∧ (∀ v, db.QueryRow nationalDetentionsSQL [s, e] = Except.ok v →
          (GetNationalAggregate c now1 now2 db).body.TotalDetentions = v)
      ∧ (∀ err, db.QueryRow nationalDetentionsSQL [s, e] = Except.error err →
          (GetNationalAggregate c now1 now2 db).body.TotalDetentions = 0)
      ∧ (∀ v, db.QueryRow nationalRemovalsSQL [s, e] = Except.ok v →
          (GetNationalAggregate c now1 now2 db).body.TotalRemovals = v)
      ∧ (∀ err, db.QueryRow nationalRemovalsSQL [s, e] = Except.error err →
          (GetNationalAggregate c now1 now2 db).body.TotalRemovals = 0))
    ∧ ((GetStateAggregate c now1 now2 db).status = 200
      ∧ (GetStateAggregate c now1 now2 db).calls =
          [Call.queryRow stateArrestsSQL [c.Param "state", s, e],
           Call.queryRow stateDetentionsSQL [c.Param "state", s, e],
           Call.queryRow stateRemovalsSQL [c.Param "state", s, e]]
      ∧ (∀ v, db.QueryRow stateArrestsSQL [c.Param "state", s, e] = Except.ok v →
          (GetStateAggregate c now1 now2 db).body.TotalArrests = v)
      ∧ (∀ err, db.QueryRow stateArrestsSQL [c.Param "state", s, e] = Except.error err →
          (GetStateAggregate c now1 now2 db).body.TotalArrests = 0)
      ∧ (∀ v, db.QueryRow stateDetentionsSQL [c.Param "state", s, e] = Except.ok v →
          (GetStateAggregate c now1 now2 db).body.TotalDetentions = v)
      ∧ (∀ err, db.QueryRow stateDetentionsSQL [c.Param "state", s, e] = Except.error err →
          (GetStateAggregate c now1 now2 db).body.TotalDetentions = 0)
      ∧ (∀ v, db.QueryRow stateRemovalsSQL [c.Param "state", s, e] = Except.ok v →
          (GetStateAggregate c now1 now2 db).body.TotalRemovals = v)
      ∧ (∀ err, db.QueryRow stateRemovalsSQL [c.Param "state", s, e] = Except.error err →
          (GetStateAggregate c now1 now2 db).body.TotalRemovals = 0)) := by
  subst hs he
  refine ⟨⟨rfl, rfl, ?_, ?_, ?_, ?_, ?_, ?_⟩, ⟨rfl, rfl, ?_, ?_, ?_, ?_, ?_, ?_⟩⟩ <;>
    intro v hv <;> simp [GetNationalAggregate, GetStateAggregate, hv, scanOrZero]

/-- Witness for C4: the arrests sub-query returns 120, the detentions sub-query
times out and the removals sub-query returns 30; the reply carries 120 and 0. -/
theorem aggregate_subquery_failures_are_isolated_witness :
    (GetNationalAggregate rangeRequest sampleNow sampleNow degradedPool).body.TotalArrests = 120
    ∧ (GetNationalAggregate rangeRequest sampleNow sampleNow degradedPool).body.TotalDetentions
        = 0 :=
  ⟨(aggregate_subquery_failures_are_isolated rangeRequest sampleNow sampleNow degradedPool
      "2024-01-01" "2024-01-31" rfl rfl).1.2.2.1 120 rfl,
   (aggregate_subquery_failures_are_isolated rangeRequest sampleNow sampleNow degradedPool
      "2024-01-01" "2024-01-31" rfl rfl).1.2.2.2.2.2.1 "context deadline exceeded" rfl⟩

/-! ## Health -/

/-- C5: when the connectivity check fails with an error text, `HealthCheck`
replies with status 503, overall status unhealthy, `database.connected` false,
`database.message` equal to the error text and no source-health entries, and
the only storage call issued is the ping. -/
theorem health_ping_failure_short_circuits (now : Time) (db : Pool DataSourceHealth)
    (err : String) (hp : db.Ping = Except.error err) :
    (HealthCheck now db).status = 503
    ∧ (HealthCheck now db).body.Status = "unhealthy"
    ∧ (HealthCheck now db).body.Database.Connected = false
    ∧ (HealthCheck now db).body.Database.Message = err
    ∧ (HealthCheck now db).body.Sources = []
    ∧ (HealthCheck now db).calls = [Call.ping] := by
  simp [HealthCheck, hp]

/-- Witness for C5: an unreachable store. -/
theorem health_ping_failure_short_circuits_witness :
    (HealthCheck sampleNow downPool).status = 503
    ∧ (HealthCheck sampleNow downPool).body.Status = "unhealthy"
    ∧ (HealthCheck sampleNow downPool).body.Database.Connected = false
    ∧ (HealthCheck sampleNow downPool).body.Database.Message = "connection refused"
    ∧ (HealthCheck sampleNow downPool).body.Sources = []
    ∧ (HealthCheck sampleNow downPool).calls = [Call.ping] :=
  health_ping_failure_short_circuits sampleNow downPool "connection refused" rfl

/-- C6 fails on the code in its source listing: with a successful connectivity
check and a successful source-health query the reply is 200, healthy and
connected, but the listing is only the rows that decode before the first row
that fails to decode.  For the rows bad, good the reply has no source entries,
where the claim gives the one decoded row. -/
theorem health_listing_stops_at_first_bad_row :
    (∀ (now : Time) (rows : List (Except String DataSourceHealth)),
      (HealthCheck now (rowsPool rows)).status = 200
      ∧ (HealthCheck now (rowsPool rows)).body.Status = "healthy"
      ∧ (HealthCheck now (rowsPool rows)).body.Database.Connected = true
      ∧ (HealthCheck now (rowsPool rows)).body.Sources = decodedRows (rowsBeforeFailure rows))
    ∧ (HealthCheck sampleNow upPool).status = 200
    ∧ (HealthCheck sampleNow upPool).body.Status = "healthy"
    ∧ (HealthCheck sampleNow upPool).body.Sources = []
    ∧ decodedRows sourceRows = [sampleSource] := by
  refine ⟨?_, by decide, by decide, by decide, by decide⟩
  intro now rows
  simp [HealthCheck, rowsPool, scanRows_eq]

/-! ## Aggregates: the detentions average -/

/-- C8 fails on the code: an average detained count of 45.5 does not scan into
the `int` field, the handler takes the error branch and `total_detentions` is 0,
where the claim gives the truncated value 45; arrests and removals keep 120 and
30 and the status is 200.  A whole average of 45 is stored as 45. -/
theorem fractional_average_gives_zero_detentions :
    Numeric.truncate ⟨455, -1⟩ = 45
    ∧ (GetNationalAggregate bareRequest sampleNow sampleNow (averagePool ⟨455, -1⟩)).status = 200
    ∧ (GetNationalAggregate bareRequest sampleNow sampleNow
        (averagePool ⟨455, -1⟩)).body.TotalDetentions = 0
    ∧ (GetNationalAggregate bareRequest sampleNow sampleNow
        (averagePool ⟨455, -1⟩)).body.TotalArrests = 120
    ∧ (GetNationalAggregate bareRequest sampleNow sampleNow
        (averagePool ⟨455, -1⟩)).body.TotalRemovals = 30
    ∧ (GetStateAggregate bareRequest sampleNow sampleNow
        (averagePool ⟨455, -1⟩)).body.TotalDetentions = 0
    ∧ (GetNationalAggregate bareRequest sampleNow sampleNow
        (averagePool ⟨45, 0⟩)).body.TotalDetentions = 45
    ∧ (GetNationalAggregate bareRequest sampleNow sampleNow
        (averagePool ⟨450, -1⟩)).body.TotalDetentions = 45 := by
  decide

/-! ## Aggregates: dates -/

/-- C9, as stated, fails: with `start_date=not-a-date`, which does not parse, the
national aggregate on 15 March 2024 passes the raw text to the sub-queries and
echoes the zero time, whereas with the parameter omitted it passes 2024-02-15
and echoes 15 February 2024. -/
theorem unparsable_start_date_is_not_defaulted :
    timeParse "not-a-date" = none
    ∧ (GetNationalAggregate badStartRequest sampleNow sampleNow datePool).calls =
        [Call.queryRow nationalArrestsSQL ["not-a-date", "2024-03-15"],
         Call.queryRow nationalDetentionsSQL ["not-a-date", "2024-03-15"],
         Call.queryRow nationalRemovalsSQL ["not-a-date", "2024-03-15"]]
    ∧ (GetNationalAggregate bareRequest sampleNow sampleNow datePool).calls =
        [Call.queryRow nationalArrestsSQL ["2024-02-15", "2024-03-15"],
         Call.queryRow nationalDetentionsSQL ["2024-02-15", "2024-03-15"],
         Call.queryRow nationalRemovalsSQL ["2024-02-15", "2024-03-15"]]
    ∧ (GetNationalAggregate badStartRequest sampleNow sampleNow datePool).body.StartDate
        = Time.zero
    ∧ (GetNationalAggregate bareRequest sampleNow sampleNow datePool).body.StartDate
        = ⟨2024, 2, 15, 0, 0, 0, 0⟩
    ∧ (GetNationalAggregate badStartRequest sampleNow sampleNow datePool).body.StartDate
        ≠ (GetNationalAggregate bareRequest sampleNow sampleNow datePool).body.StartDate
    ∧ (GetStateAggregate badStartRequest sampleNow sampleNow datePool).body.StartDate
        ≠ (GetStateAggregate bareRequest sampleNow sampleNow datePool).body.StartDate := by
  decide

/-- C9, amended: for a supplied `start_date` or `end_date` that does not parse as
a calendar date, `GetNationalAggregate` and `GetStateAggregate` still reply with
status 200, but the value is not replaced by the default: the supplied text is
passed unchanged as the bound of the three sub-queries, and the date echoed in
the reply for that parameter is the zero time. -/
theorem aggregate_unparsable_date_passes_through {ρ : Type} (c : Context)
    (now1 now2 : Time) (db : Pool ρ) (s : String) (hp : timeParse s = none) :
    (c.GetQuery "start_date" = some s →
      ∀ e, e = c.DefaultQuery "end_date" (defaultEndDate now2) →
        (GetNationalAggregate c now1 now2 db).status = 200
        ∧ (GetNationalAggregate c now1 now2 db).body.StartDate = Time.zero
        ∧ (GetNationalAggregate c now1 now2 db).calls =
            [Call.queryRow nationalArrestsSQL [s, e],
             Call.queryRow nationalDetentionsSQL [s, e],
             Call.queryRow nationalRemovalsSQL [s, e]]
        ∧ (GetStateAggregate c now1 now2 db).status = 200
        ∧ (GetStateAggregate c now1 now2 db).body.StartDate = Time.zero
        ∧ (GetStateAggregate c now1 now2 db).calls =
            [Call.queryRow stateArrestsSQL [c.Param "state", s, e],
             Call.queryRow stateDetentionsSQL [c.Param "state", s, e],
             Call.queryRow stateRemovalsSQL [c.Param "state", s, e]])
    ∧ (c.GetQuery "end_date" = some s →
      ∀ b, b = c.DefaultQuery "start_date" (defaultStartDate now1) →
        (GetNationalAggregate c now1 now2 db).status = 200
        ∧ (GetNationalAggregate c now1 now2 db).body.EndDate = Time.zero
        ∧ (GetNationalAggregate c now1 now2 db).calls =
            [Call.queryRow nationalArrestsSQL [b, s],
             Call.queryRow nationalDetentionsSQL [b, s],
             Call.queryRow nationalRemovalsSQL [b, s]]
        ∧ (GetStateAggregate c now1 now2 db).status = 200
        ∧ (GetStateAggregate c now1 now2 db).body.EndDate = Time.zero
        ∧ (GetStateAggregate c now1 now2 db).calls =
            [Call.queryRow stateArrestsSQL [c.Param "state", b, s],
             Call.queryRow stateDetentionsSQL [c.Param "state", b, s],
             Call.queryRow stateRemovalsSQL [c.Param "state", b, s]]) := by
  constructor
  · intro hq e he
    subst he
    simp [GetNationalAggregate, GetStateAggregate, Context.DefaultQuery, hq, parseOrZero, hp]
  · intro hq b hb
    subst hb
    simp [GetNationalAggregate, GetStateAggregate, Context.DefaultQuery, hq, parseOrZero, hp]

/-- Witness for the amended C9: `start_date=not-a-date` on 15 March 2024. -/
theorem aggregate_unparsable_date_passes_through_witness :
    (GetNationalAggregate badStartRequest sampleNow sampleNow datePool).status = 200
    ∧ (GetNationalAggregate badStartRequest sampleNow sampleNow datePool).body.StartDate
        = Time.zero
    ∧ (GetNationalAggregate badStartRequest sampleNow sampleNow datePool).calls =
        [Call.queryRow nationalArrestsSQL ["not-a-date", "2024-03-15"],
         Call.queryRow nationalDetentionsSQL ["not-a-date", "2024-03-15"],
         Call.queryRow nationalRemovalsSQL ["not-a-date", "2024-03-15"]] :=
  ⟨((aggregate_unparsable_date_passes_through badStartRequest sampleNow sampleNow datePool
      "not-a-date" (by decide)).1 rfl "2024-03-15" (by decide)).1,
   ((aggregate_unparsable_date_passes_through badStartRequest sampleNow sampleNow datePool
      "not-a-date" (by decide)).1 rfl "2024-03-15" (by decide)).2.1,
   ((aggregate_unparsable_date_passes_through badStartRequest sampleNow sampleNow datePool
      "not-a-date" (by decide)).1 rfl "2024-03-15" (by decide)).2.2.1⟩


/-- C10, as stated, fails: on 31 May 2024 the default start is 1 May 2024, a date
in the current month and not in April, the month before; the sub-queries get
2024-05-01 and the reply echoes 1 May 2024. -/
theorem default_start_can_stay_in_current_month :
    previousMonth lastOfMay = (2024, 4)
    ∧ (lastOfMay.AddDate 0 (-1) 0).month = 5
    ∧ (lastOfMay.AddDate 0 (-1) 0).month ≠ (previousMonth lastOfMay).2
    ∧ defaultStartDate lastOfMay = "2024-05-01"
    ∧ (GetNationalAggregate bareRequest lastOfMay lastOfMay datePool).calls =
        [Call.queryRow nationalArrestsSQL ["2024-05-01", "2024-05-31"],
         Call.queryRow nationalDetentionsSQL ["2024-05-01", "2024-05-31"],
         Call.queryRow nationalRemovalsSQL ["2024-05-01", "2024-05-31"]]
    ∧ (GetNationalAggregate bareRequest lastOfMay lastOfMay datePool).body.StartDate
        = ⟨2024, 5, 1, 0, 0, 0, 0⟩
    ∧ (GetStateAggregate bareRequest lastOfMay lastOfMay datePool).body.StartDate
        = ⟨2024, 5, 1, 0, 0, 0, 0⟩ := by
  decide

/-- C10, amended: for every current date with a year from 1 to 9999, when the
request has neither `start_date` nor `end_date`, the aggregate handlers use end =
the current date and start = one month back with carry: the same day of the
previous calendar month when that month has such a day, and otherwise the day
of the current month left after taking off the length of the previous month.
Both are passed to the three sub-queries as date texts without a time of day,
the start is strictly before the end, and the reply echoes those two dates at
midnight. -/
theorem aggregate_default_range_is_month_back_with_carry {ρ : Type} (c : Context)
    (now : Time) (db : Pool ρ)
    (hs : c.GetQuery "start_date" = none) (he : c.GetQuery "end_date" = none)
    (hv : now.validDate) (hy1 : 1 ≤ now.year) (hy : now.year ≤ 9999) :
    (GetNationalAggregate c now now db).calls =
        [Call.queryRow nationalArrestsSQL [(monthBackWithCarry now).Format, now.midnight.Format],
         Call.queryRow nationalDetentionsSQL
           [(monthBackWithCarry now).Format, now.midnight.Format],
         Call.queryRow nationalRemovalsSQL [(monthBackWithCarry now).Format, now.midnight.Format]]
    ∧ (GetNationalAggregate c now now db).body.StartDate = monthBackWithCarry now
    ∧ (GetNationalAggregate c now now db).body.EndDate = now.midnight
    ∧ (GetStateAggregate c now now db).calls =
        [Call.queryRow stateArrestsSQL
           [c.Param "state", (monthBackWithCarry now).Format, now.midnight.Format],
         Call.queryRow stateDetentionsSQL
           [c.Param "state", (monthBackWithCarry now).Format, now.midnight.Format],
         Call.queryRow stateRemovalsSQL
           [c.Param "state", (monthBackWithCarry now).Format, now.midnight.Format]]
    ∧ (GetStateAggregate c now now db).body.StartDate = monthBackWithCarry now
    ∧ (GetStateAggregate c now now db).body.EndDate = now.midnight
    ∧ timeParse (monthBackWithCarry now).Format = some (monthBackWithCarry now)
    ∧ timeParse now.midnight.Format = some now.midnight
    ∧ (monthBackWithCarry now).dateBefore now.midnight
    ∧ (monthBackWithCarry now).midnight = monthBackWithCarry now := by
  have hb := monthBackWithCarry_year now
  have hm : (monthBackWithCarry now).midnight = monthBackWithCarry now := by
    unfold monthBackWithCarry Time.midnight
    dsimp only
    split <;> rfl
  have hds : defaultStartDate now = (monthBackWithCarry now).Format := by
    unfold defaultStartDate
    rw [AddDate_month_back now hv, ← hm]
    rfl
  have hde : defaultEndDate now = now.midnight.Format := rfl
  have hps : timeParse (monthBackWithCarry now).Format = some (monthBackWithCarry now) := by
    have h := timeParse_Format (monthBackWithCarry now) (by omega) (by omega)
      (monthBackWithCarry_valid now hv)
    rwa [hm] at h
  have hpe : timeParse now.midnight.Format = some now.midnight :=
    timeParse_Format now (by omega) hy hv
  refine ⟨?_, ?_, ?_, ?_, ?_, ?_, hps, hpe, monthBackWithCarry_before now hv, hm⟩ <;>
    simp [GetNationalAggregate, GetStateAggregate, Context.DefaultQuery, hs, he, hds, hde,
      parseOrZero, hps, hpe]

/-- Witness for the amended C10: on 31 May 2024 the range is 1 May to 31 May, and
on 15 March 2024 it is 15 February to 15 March. -/
theorem aggregate_default_range_is_month_back_with_carry_witness :
    (GetNationalAggregate bareRequest lastOfMay lastOfMay datePool).body.StartDate
        = monthBackWithCarry lastOfMay
    ∧ (GetStateAggregate bareRequest sampleNow sampleNow datePool).body.EndDate
        = sampleNow.midnight :=
  ⟨(aggregate_default_range_is_month_back_with_carry bareRequest lastOfMay datePool rfl rfl
      (by decide) (by decide) (by decide)).2.1,
   (aggregate_default_range_is_month_back_with_carry bareRequest sampleNow datePool rfl rfl
      (by decide) (by decide) (by decide)).2.2.2.2.2.1⟩

end IceTracker
